import Mathlib

/-!
Verification of the spyder-terminal session bridge
(`spyder_terminal/widgets/terminalgui.py`) against its specification.

The file shallowly embeds the observable behaviour of the bridge:
each Python method that dispatches a command through
`TermView.eval_javascript` is modelled by a Lean function that produces
the serialized command text (or the list of command texts) it sends,
and stateful behaviour (the stored font, the liveness polling loop,
raised exceptions) is modelled by explicit state passing, trace lists
and an explicit error component.
-/

namespace SpyderTerminal

/-- Values returned by the rendering surface when a script is evaluated. -/
inductive JSValue
  | bool (b : Bool)
  | str (s : String)
  | num (n : Int)
  | null
  deriving DecidableEq, Repr

/-- Values stored in the flat configuration mapping consumed by
`apply_settings` (Python booleans, integers and strings). -/
inductive OptionValue
  | bool (b : Bool)
  | int (n : Int)
  | str (s : String)
  deriving DecidableEq, Repr

/-- Python truthiness of an option value, as used by
`'sound' if options['sound'] else 'none'`. -/
def OptionValue.truthy : OptionValue → Bool
  | .bool b => b
  | .int n => decide (n ≠ 0)
  | .str s => !s.isEmpty

/-- The key a value denotes when used to index the Python dict
`{0: "block", 1: "underline", 2: "bar"}`: Python `bool` is a subtype of
`int` with `True == 1` and `False == 0`, while a string value is never
equal to an integer key. -/
def OptionValue.intKey : OptionValue → Option Int
  | .bool b => some (if b then 1 else 0)
  | .int n => some n
  | .str _ => none

/-- `PREFIX = 'spyder_terminal.default.'` (terminalgui.py line 33). -/
def PREFIX : String := "spyder_terminal.default."

/-- Serialization performed by `TermView.eval_javascript`: the dispatched
command text is the script with the fixed namespace prefix prepended
(`script = PREFIX + script`). -/
def eval_javascript (script : String) : String := PREFIX ++ script

/-- `TermView.eval_javascript` on a synchronous-capable (non-WebEngine)
backend, modelling the Python return value.  The source reads

    self.document.evaluateJavaScript("{}".format(script))

inside the `else:` branch: the result of `evaluateJavaScript` is
discarded and the method body has no `return` statement, so the Python
call returns `None` (modelled as `Option.none`) no matter what the
backend evaluates the script to. -/
def eval_javascript_sync (backend : String → JSValue) (script : String) :
    Option JSValue :=
  let _discarded := backend ( PREFIX ++ script)
  none

/-- `TerminalWidget.is_alive` on a non-WebEngine backend:
`alive = self.eval_javascript('isAlive()'); return alive`. -/
def is_alive (backend : String → JSValue) : Option JSValue :=
  eval_javascript_sync backend "isAlive()"

/-- Python truthiness of a value returned from `eval_javascript`, as
used by `if not alive:` in `TerminalWidget.__alive_loopback`. -/
def pyTruthy : Option JSValue → Bool
  | none => false
  | some (.bool b) => b
  | some (.num n) => decide (n ≠ 0)
  | some (.str s) => !s.isEmpty
  | some .null => false

/-- `TerminalWidget.set_dir`: dispatches `'setcwd("{0}")'.format(path)`
through `eval_javascript`. -/
def set_dir (path : String) : String :=
  eval_javascript ("setcwd(\"" ++ path ++ "\")")

/-- The observable state of the bridge relevant to `set_font`:
the stored font (`self.font`). -/
structure BridgeState where
  font : String
  deriving DecidableEq, Repr

/-- `TerminalWidget.set_font`: `self.font = font` followed by
dispatching `'fitFont("{0}")'.format(self.font)`.  Returns the new
state together with the dispatched command text. -/
def set_font (st : BridgeState) (font : String) : BridgeState × String :=
  let st' : BridgeState := { st with font := font }
  (st', eval_javascript ("fitFont(\"" ++ st'.font ++ "\")"))

/-- `TermView.wheelEvent`: reads `delta = event.angleDelta().y()` and
dispatches `'scrollTerm({0})'.format(delta)`; the list of commands the
handler issues for one wheel event. -/
def wheelEvent (delta : Int) : List String :=
  [eval_javascript ("scrollTerm(" ++ toString delta ++ ")")]

/-- The two surface actions the shortcut intercept can invoke. -/
inductive TermAction
  | copy
  | paste
  deriving DecidableEq, Repr

/-- The `QEvent.ShortcutOverride` branch of `TermView.event`, as a
function of the portable-text chord.  Returns the action invoked (if
any) and whether the event was consumed (`event.accept(); return True`)
or released (`event.ignore(); return False`). -/
def shortcut_override (sequence : String) : Option TermAction × Bool :=
  if sequence = "Ctrl+Alt+Shift+T" then
    (none, false)
  else if sequence = "Ctrl+Shift+C" then
    (some TermAction.copy, true)
  else if sequence = "Ctrl+Shift+V" then
    (some TermAction.paste, true)
  else
    (none, true)

/-- `TerminalWidget.set_option`: dispatches
`'setOption("{}", "{}")'.format(option_name, option)`. -/
def setOptionCmd (option_name option : String) : String :=
  eval_javascript ("setOption(\"" ++ option_name ++ "\", \"" ++ option ++ "\")")

/-- The Python dict `cursor_choices = {0: "block", 1: "underline", 2: "bar"}`
of `TerminalWidget.apply_settings`; `none` models a `KeyError` on
subscripting. -/
def cursor_choices (cursor_id : Int) : Option String :=
  if cursor_id = 0 then some "block"
  else if cursor_id = 1 then some "underline"
  else if cursor_id = 2 then some "bar"
  else none

/-- `TerminalWidget.apply_settings(options)`.  The options dictionary is
modelled as an association list; the result is the list of command
texts issued before control leaves the method, paired with `some e`
when the method raises (the `cursor_choices[cursor_id]` subscript on an
unmapped key) and `none` when it returns normally.  The bell-style
block runs first, so its command is issued even when the cursor block
raises afterwards. -/
def apply_settings (options : List (String × OptionValue)) :
    List String × Option String :=
  let bell : List String :=
    match options.lookup "sound" with
    | some v => [setOptionCmd "bellStyle" (if v.truthy then "sound" else "none")]
    | none => []
  match options.lookup "cursor_type" with
  | some v =>
    match v.intKey.bind cursor_choices with
    | some choice => (bell ++ [setOptionCmd "cursorStyle" choice], none)
    | none => (bell, some "KeyError")
  | none => (bell, none)

/-- `TerminalWidget.setup_term`, run when the ready notification fires:
`self.set_font(self.font)`, then `self.set_dir(self.initial_path)`,
then `self.apply_settings(dict_options)` on the options snapshot read
from the configuration store.  Result: the issued command texts in
order, with the error component of `apply_settings`. -/
def setup_term (font path : String) (options : List (String × OptionValue)) :
    List String × Option String :=
  let settings := apply_settings options
  ((set_font { font := font } font).2 :: set_dir path :: settings.1, settings.2)

/-- One observable event of the liveness loop: a poll of `isAlive()` at
a given time (milliseconds since construction), or the emission of the
`terminal_closed` signal. -/
inductive LoopEvent
  | poll (time : Nat)
  | closedSignal
  deriving DecidableEq, Repr

/-- `TerminalWidget.__alive_loopback` driven by an oracle giving the
truthiness of successive `is_alive()` answers: the body runs at `time`,
polls (answer number `i`), and either emits `terminal_closed` and stops
(falsy answer) or reschedules itself 250 ms later
(`QTimer.singleShot(250, self.__alive_loopback)`).  `fuel` bounds the
unrolling of the loop. -/
def alive_loopback (oracle : Nat → Bool) (i time fuel : Nat) : List LoopEvent :=
  match fuel with
  | 0 => []
  | fuel + 1 =>
    LoopEvent.poll time ::
      (if oracle i then alive_loopback oracle (i + 1) (time + 250) fuel
       else [LoopEvent.closedSignal])

/-- The liveness loop as launched by `TerminalWidget.__init__` on a
non-WebEngine backend: `QTimer.singleShot(250, self.__alive_loopback)`,
so the first body run happens 250 ms after construction. -/
def liveness_run (oracle : Nat → Bool) (fuel : Nat) : List LoopEvent :=
  alive_loopback oracle 0 250 fuel

/-- Whether a loop event is a poll. -/
def LoopEvent.isPoll : LoopEvent → Bool
  | .poll _ => true
  | .closedSignal => false

/-! ## Theorems -/

/-- Unrolling of `alive_loopback`: if the oracle answers true for the
`N` answers starting at index `i` and false at index `i + N`, the loop
polls `N + 1` times at 250 ms intervals starting at `t`, then emits the
closed signal and stops. -/
theorem alive_loopback_spec (oracle : Nat → Bool) :
    ∀ N i t fuel : Nat, (∀ j, j < N → oracle (i + j) = true) →
      oracle (i + N) = false → N < fuel →
      alive_loopback oracle i t fuel =
        (List.range (N + 1)).map (fun k => LoopEvent.poll (t + 250 * k)) ++
          [LoopEvent.closedSignal] := by
  intro N
  induction N with
  | zero =>
    intro i t fuel _htrue hfalse hfuel
    match fuel, hfuel with
    | fuel + 1, _ =>
      have hi : oracle i = false := by simpa using hfalse
      simp [alive_loopback, hi, List.range_succ, List.range_zero]
  | succ N ih =>
    intro i t fuel htrue hfalse hfuel
    match fuel, hfuel with
    | fuel + 1, hfuel =>
      have hi : oracle i = true := by simpa using htrue 0 (Nat.succ_pos N)
      have htrue' : ∀ j, j < N → oracle (i + 1 + j) = true := by
        intro j hj
        have := htrue (j + 1) (Nat.succ_lt_succ hj)
        simpa [Nat.add_assoc, Nat.add_comm 1 j] using this
      have hfalse' : oracle (i + 1 + N) = false := by
        simpa [Nat.add_assoc, Nat.add_comm 1 N] using hfalse
      have hfuel' : N < fuel := Nat.lt_of_succ_lt_succ hfuel
      have step := ih (i + 1) (t + 250) fuel htrue' hfalse' hfuel'
      simp only [alive_loopback, hi, if_true, step]
      conv_rhs => rw [List.range_succ_eq_map]
      simp only [List.map_cons, List.map_map, List.cons_append,
        Nat.mul_zero, Nat.add_zero]
      congr 1
      congr 1
      congr 1
      funext k
      simp only [Function.comp_apply, Nat.succ_eq_add_one]
      congr 1
      omega

/-- Claim C1 (code bug).  The claim states that on a synchronous-capable
(non-WebEngine) backend, `eval_javascript` returns the remote
evaluation's value, so `is_alive` returns the terminal's alive flag.
The source drops the value: the `else:` branch of
`TermView.eval_javascript` calls `evaluateJavaScript` without `return`,
so `is_alive` returns Python `None` even when the backend evaluates
`isAlive()` to true, and `None` is falsy, so `__alive_loopback` would
treat a live terminal as closed.  This theorem evaluates the code at
that failing input. -/
theorem c1_is_alive_drops_backend_value :
    is_alive (fun _ => JSValue.bool true) = none ∧
    is_alive (fun _ => JSValue.bool true) ≠ some (JSValue.bool true) ∧
    pyTruthy (is_alive (fun _ => JSValue.bool true)) = false := by
  refine ⟨rfl, ?_, rfl⟩
  intro h
  exact Option.noConfusion h

/-- Claim C2: if `isAlive()` answers true for the first `N` polls and
false on the next, the liveness loop polls `N + 1` times, the poll
number `i` (counting from 0) happening `250 * (i + 1)` ms after
construction (so the first one after 250 ms and each rescheduling with
the same fixed 250 ms delay), fires the closed signal exactly once,
after the `N + 1`-st poll, and schedules no further poll afterward (the
closed signal is the last event of the trace). -/
theorem c2_liveness_monitor (N : Nat) (oracle : Nat → Bool)
    (htrue : ∀ i, i < N → oracle i = true) (hfalse : oracle N = false)
    (fuel : Nat) (hfuel : N < fuel) :
    liveness_run oracle fuel =
      (List.range (N + 1)).map (fun i => LoopEvent.poll (250 * (i + 1))) ++
        [LoopEvent.closedSignal] ∧
    (liveness_run oracle fuel).count LoopEvent.closedSignal = 1 ∧
    ((liveness_run oracle fuel).filter LoopEvent.isPoll).length = N + 1 ∧
    (liveness_run oracle fuel).getLast? = some LoopEvent.closedSignal := by
  have heq : liveness_run oracle fuel =
      (List.range (N + 1)).map (fun k => LoopEvent.poll (250 + 250 * k)) ++
        [LoopEvent.closedSignal] :=
    alive_loopback_spec oracle N 0 250 fuel
      (fun j hj => by simpa using htrue j hj) (by simpa using hfalse) hfuel
  have hfun : (fun k => LoopEvent.poll (250 + 250 * k)) =
      (fun i => LoopEvent.poll (250 * (i + 1))) := by
    funext k
    congr 1
    omega
  rw [hfun] at heq
  refine ⟨heq, ?_, ?_, ?_⟩
  · rw [heq, List.count_append]
    have h0 : ((List.range (N + 1)).map
        (fun i => LoopEvent.poll (250 * (i + 1)))).count
          LoopEvent.closedSignal = 0 := by
      rw [List.count_eq_zero]
      simp
    rw [h0]
    simp
  · rw [heq, List.filter_append]
    have hall : List.filter LoopEvent.isPoll
        ((List.range (N + 1)).map (fun i => LoopEvent.poll (250 * (i + 1)))) =
        (List.range (N + 1)).map (fun i => LoopEvent.poll (250 * (i + 1))) := by
      rw [List.filter_eq_self]
      intro a ha
      rcases List.mem_map.mp ha with ⟨k, _, rfl⟩
      rfl
    rw [hall]
    simp [LoopEvent.isPoll]
  · rw [heq]
    simp

/-- Claim C2, witness: an oracle answering true once then false, run
with fuel 2. -/
theorem c2_liveness_monitor_witness :
    liveness_run (fun i => decide (i < 1)) 2 =
      (List.range 2).map (fun i => LoopEvent.poll (250 * (i + 1))) ++
        [LoopEvent.closedSignal] ∧
    (liveness_run (fun i => decide (i < 1)) 2).count LoopEvent.closedSignal
      = 1 ∧
    ((liveness_run (fun i => decide (i < 1)) 2).filter
      LoopEvent.isPoll).length = 2 ∧
    (liveness_run (fun i => decide (i < 1)) 2).getLast?
      = some LoopEvent.closedSignal :=
  c2_liveness_monitor 1 (fun i => decide (i < 1))
    (fun i hi => decide_eq_true hi) (by decide) 2 (by decide)

/-- Claim C4: during the shortcut-override intercept, the chord
`"Ctrl+Shift+C"` invokes copy and consumes the event, `"Ctrl+Shift+V"`
invokes paste and consumes the event, the reserved toggle chord
`"Ctrl+Alt+Shift+T"` invokes nothing and is not consumed, and every
other chord is consumed with no action invoked. -/
theorem c4_shortcut_override_dispatch :
    shortcut_override "Ctrl+Shift+C" = (some TermAction.copy, true) ∧
    shortcut_override "Ctrl+Shift+V" = (some TermAction.paste, true) ∧
    shortcut_override "Ctrl+Alt+Shift+T" = (none, false) ∧
    ∀ s : String, s ≠ "Ctrl+Alt+Shift+T" → s ≠ "Ctrl+Shift+C" →
      s ≠ "Ctrl+Shift+V" → shortcut_override s = (none, true) := by
  refine ⟨by decide, by decide, by decide, ?_⟩
  intro s h1 h2 h3
  simp [shortcut_override, h1, h2, h3]

/-- Claim C4, witness: the unrecognized chord `"Ctrl+A"` is consumed
with no action invoked. -/
theorem c4_shortcut_override_dispatch_witness :
    shortcut_override "Ctrl+A" = (none, true) :=
  c4_shortcut_override_dispatch.2.2.2 "Ctrl+A"
    (by decide) (by decide) (by decide)

/-- Claim C5: for every path, the set-working-directory command
serializes exactly `setcwd("<path>")` preceded by the fixed namespace
prefix `spyder_terminal.default.`; in particular `"/tmp/x"` yields
`spyder_terminal.default.setcwd("/tmp/x")`. -/
theorem c5_set_dir_serialization :
    PREFIX = "spyder_terminal.default." ∧
    (∀ path : String,
      set_dir path = PREFIX ++ ("setcwd(\"" ++ path ++ "\")")) ∧
    set_dir "/tmp/x" = "spyder_terminal.default.setcwd(\"/tmp/x\")" :=
  ⟨rfl, fun _ => rfl, rfl⟩

/-- Claim C8: calling `set_font` twice with the same font issues two
identical `fitFont` commands, and the bridge state after the second
call equals the state after the first. -/
theorem c8_set_font_idempotent (st : BridgeState) (f : String) :
    (set_font (set_font st f).1 f).1 = (set_font st f).1 ∧
    (set_font (set_font st f).1 f).2 = (set_font st f).2 ∧
    (set_font st f).2 = eval_javascript ("fitFont(\"" ++ f ++ "\")") :=
  ⟨rfl, rfl, rfl⟩

/-- Claim C10: every wheel event issues exactly one `scrollTerm`
command whose single argument is the event's vertical angle delta, and
no other command. -/
theorem c10_wheel_event_single_scroll (delta : Int) :
    wheelEvent delta = [ PREFIX ++ ("scrollTerm(" ++ toString delta ++ ")")] ∧
    (wheelEvent delta).length = 1 :=
  ⟨rfl, rfl⟩

/-- Claim C3: for every options map containing `sound = true` and
`cursor_type = 1` (plus any other keys), `apply_settings` issues
exactly the two commands `setOption("bellStyle", "sound")` and
`setOption("cursorStyle", "underline")` and raises nothing; a map with
neither recognized key produces no calls and no error. -/
theorem c3_apply_settings_sound_cursor
    (options : List (String × OptionValue))
    (hs : options.lookup "sound" = some (OptionValue.bool true))
    (hc : options.lookup "cursor_type" = some (OptionValue.int 1)) :
    apply_settings options =
      ([setOptionCmd "bellStyle" "sound",
        setOptionCmd "cursorStyle" "underline"], none) ∧
    ∀ other : List (String × OptionValue),
      other.lookup "sound" = none → other.lookup "cursor_type" = none →
        apply_settings other = ([], none) := by
  constructor
  · simp [apply_settings, hs, hc, OptionValue.truthy, OptionValue.intKey,
      cursor_choices]
  · intro other hos hoc
    simp [apply_settings, hos, hoc]

/-- Claim C3, witness: a concrete map with both recognized keys and an
unrecognized one. -/
theorem c3_apply_settings_sound_cursor_witness :
    apply_settings
        [("zoom", OptionValue.int 3), ("sound", OptionValue.bool true),
         ("cursor_type", OptionValue.int 1)] =
      ([setOptionCmd "bellStyle" "sound",
        setOptionCmd "cursorStyle" "underline"], none) :=
  (c3_apply_settings_sound_cursor
    [("zoom", OptionValue.int 3), ("sound", OptionValue.bool true),
     ("cursor_type", OptionValue.int 1)] (by decide) (by decide)).1

/-- Claim C6: when the ready notification fires, `setup_term` issues,
in order, the `fitFont` command, then the `setcwd` command, then the
commands of `apply_settings` on the current options snapshot. -/
theorem c6_setup_term_order (font path : String)
    (options : List (String × OptionValue)) :
    (setup_term font path options).1 =
      [eval_javascript ("fitFont(\"" ++ font ++ "\")")] ++
        [eval_javascript ("setcwd(\"" ++ path ++ "\")")] ++
        (apply_settings options).1 ∧
    (setup_term font path options).1.take 2 =
      [(set_font { font := font } font).2, set_dir path] :=
  ⟨rfl, rfl⟩

/-- Claim C7: under the precondition that `cursor_type` is one of the
integers 0, 1, 2, `apply_settings` never raises; the cursor-style
lookup maps 0 to `"block"`, 1 to `"underline"` and 2 to `"bar"`; and
outside the precondition the `cursor_choices` subscript is the only
possible source of failure. -/
theorem c7_cursor_mapping_total_in_range :
    cursor_choices 0 = some "block" ∧
    cursor_choices 1 = some "underline" ∧
    cursor_choices 2 = some "bar" ∧
    (∀ (options : List (String × OptionValue)) (n : Int),
      options.lookup "cursor_type" = some (OptionValue.int n) →
      n = 0 ∨ n = 1 ∨ n = 2 → (apply_settings options).2 = none) ∧
    (∀ options : List (String × OptionValue),
      (apply_settings options).2 ≠ none →
      ∃ v, options.lookup "cursor_type" = some v ∧
        v.intKey.bind cursor_choices = none) := by
  refine ⟨rfl, rfl, rfl, ?_, ?_⟩
  · intro options n hc hn
    have hk : (OptionValue.int n).intKey.bind cursor_choices ≠ none := by
      rcases hn with h | h | h <;>
        simp [h, OptionValue.intKey, cursor_choices]
    rcases ho : (OptionValue.int n).intKey.bind cursor_choices with _ | choice
    · exact absurd ho hk
    · simp [apply_settings, hc, ho]
  · intro options herr
    rcases hc : options.lookup "cursor_type" with _ | v
    · exact absurd (by simp [apply_settings, hc]) herr
    · refine ⟨v, rfl, ?_⟩
      rcases ho : v.intKey.bind cursor_choices with _ | choice
      · rfl
      · exact absurd (by simp [apply_settings, hc, ho]) herr

/-- Claim C7, witness: a concrete map with `cursor_type = 2` raises
nothing. -/
theorem c7_cursor_mapping_total_in_range_witness :
    (apply_settings [("cursor_type", OptionValue.int 2)]).2 = none :=
  c7_cursor_mapping_total_in_range.2.2.2.1
    [("cursor_type", OptionValue.int 2)] 2 (by decide) (by decide)

/-- Claim C9: whenever both `sound` and `cursor_type` are present, the
`bellStyle` command is issued first and the `cursorStyle` command (when
the mapping is defined) strictly after it — the order is fixed by the
code, not by the map. -/
theorem c9_bell_before_cursor
    (options : List (String × OptionValue)) (sv cv : OptionValue)
    (hs : options.lookup "sound" = some sv)
    (hc : options.lookup "cursor_type" = some cv) :
    ∃ rest : List String,
      (apply_settings options).1 =
        setOptionCmd "bellStyle" (if sv.truthy then "sound" else "none")
          :: rest ∧
      ∀ choice : String, cv.intKey.bind cursor_choices = some choice →
        rest = [setOptionCmd "cursorStyle" choice] := by
  rcases ho : cv.intKey.bind cursor_choices with _ | choice
  · refine ⟨[], ?_, ?_⟩
    · simp [apply_settings, hs, hc, ho]
    · intro c hcon
      exact absurd hcon (by simp)
  · refine ⟨[setOptionCmd "cursorStyle" choice], ?_, ?_⟩
    · simp [apply_settings, hs, hc, ho]
    · intro c hcon
      rw [Option.some_inj.mp hcon]

/-- Claim C9, witness: with `sound = false` and `cursor_type = 0`, the
bell command comes first and the cursor command second. -/
theorem c9_bell_before_cursor_witness :
    ∃ rest : List String,
      (apply_settings
          [("sound", OptionValue.bool false),
           ("cursor_type", OptionValue.int 0)]).1 =
        setOptionCmd "bellStyle"
            (if (OptionValue.bool false).truthy then "sound" else "none")
          :: rest ∧
      ∀ choice : String,
        (OptionValue.int 0).intKey.bind cursor_choices = some choice →
          rest = [setOptionCmd "cursorStyle" choice] :=
  c9_bell_before_cursor
    [("sound", OptionValue.bool false), ("cursor_type", OptionValue.int 0)]
    (OptionValue.bool false) (OptionValue.int 0) (by decide) (by decide)

end SpyderTerminal
